import Mathlib

/-!
Verification of the Rhodium radio front-end controller initialization
(`host/lib/usrp/dboard/rhodium/rhodium_radio_ctrl_init.cpp`) against its
natural-language specification.

The controller wires typed property-tree nodes (with optional write-time
coercion, read-time publishers, and synchronous subscribers) to hardware
backends.  The property-tree engine itself lives outside this file's source
tree, so its `create`/`set`/`get` semantics are modelled from the spec
(store the coerced value, then fire subscribers in order; subscriber
exceptions propagate with no rollback of the store; a publisher, when
present, is invoked on every read and nothing is cached).  Everything the
controller installs into that engine — node paths, coercers, publishers,
rejecting subscribers, default values, and the bring-up call order — is
translated directly from the C++ source.

Doubles are modelled as exact rationals: every constant involved
(2.5e9, -1, 0, 30, 250e6) is exactly representable, and no claim depends
on rounding.  `size_t` arithmetic is modelled as natural numbers with an
explicit wrap modulo 2^64 where overflow could matter.
-/

namespace Rhodium

/-- RF direction (RX_DIRECTION / TX_DIRECTION in the source). -/
inductive Direction
| RX
| TX
deriving DecidableEq, Repr

/-- `RHODIUM_DEFAULT_FREQ = 2.5e9` Hz (source line 32). -/
def RHODIUM_DEFAULT_FREQ : ℚ := 2500000000

/-- `RHODIUM_DEFAULT_INVALID_GAIN = -1` (source line 35): "An invalid default
index ensures that set gain will apply settings the first time it is
called". -/
def RHODIUM_DEFAULT_INVALID_GAIN : ℚ := -1

/-- `RHODIUM_DEFAULT_GAIN = 0` gain index (source line 36). -/
def RHODIUM_DEFAULT_GAIN : ℚ := 0

/-- `RHODIUM_DEFAULT_LO_GAIN = 30` gain index (source line 37). -/
def RHODIUM_DEFAULT_LO_GAIN : ℚ := 30

/-- `RHODIUM_DEFAULT_RX_ANTENNA = "RX2"` (source line 38). -/
def RHODIUM_DEFAULT_RX_ANTENNA : String := "RX2"

/-- `RHODIUM_DEFAULT_TX_ANTENNA = "TX/RX"` (source line 39). -/
def RHODIUM_DEFAULT_TX_ANTENNA : String := "TX/RX"

/-- `RHODIUM_DEFAULT_BANDWIDTH = 250e6` Hz (source line 40). -/
def RHODIUM_DEFAULT_BANDWIDTH : ℚ := 250000000

/-- `RHODIUM_GP_OPTIONS = { "default" }`, the gain-profile option set
(source lines 43-45). -/
def RHODIUM_GP_OPTIONS : List String := ["default"]

/-- Error taxonomy of the property-tree engine (spec section 7).  The
read-only nodes in the source throw `uhd::runtime_error` from a rejecting
subscriber; the spec classifies that failure as `ReadOnlyWriteError`. -/
inductive PtErr
| readOnlyWrite
| noSuchPath
| communication
deriving DecidableEq, Repr

/-- Modelled from the spec: `PropertyNode<T>` of the Property Tree Engine
(spec section 3), which is not part of this source tree.  `σ` is the
controller/world state the node's closures read and mutate; `α` is the
node's value type.  A node holds a current value, an optional coercion
function run on write, an optional publisher run on read, and an ordered
list of subscribers fired after every write with the coerced value
(a subscriber may fail, which models a throwing rejecting callback). -/
structure PNode (σ α : Type) where
  value : α
  coercer : Option (σ → α → σ × α) := none
  publisher : Option (σ → σ × α) := none
  subscribers : List (σ → α → Except PtErr σ) := []

/-- Modelled from the spec: fire subscribers in registration order with the
coerced value; the first failing subscriber stops the run and its error
propagates (spec section 4.1, `set`). -/
def runSubs {σ α : Type} : List (σ → α → Except PtErr σ) → σ → α → σ × Option PtErr
  | [], s, _ => (s, none)
  | f :: rest, s, v =>
    match f s v with
    | Except.ok s2 => runSubs rest s2 v
    | Except.error e => (s, some e)

/-- Modelled from the spec: `set(path, value)` on a resolved node
(spec section 4.1): run coercion if present, store the coerced result,
then fire all subscribers in order with the coerced value; subscriber
exceptions propagate to the caller with no rollback of the stored value —
the store happens before subscriber notification.  Returns the updated
node, the updated closure state, and the outcome (the coerced value, or
the propagated error). -/
def pset {σ α : Type} (n : PNode σ α) (s : σ) (v : α) : PNode σ α × σ × Except PtErr α :=
  let sc : σ × α :=
    match n.coercer with
    | some c => c s v
    | none => (s, v)
  let n2 : PNode σ α := { n with value := sc.2 }
  match runSubs n.subscribers sc.1 sc.2 with
  | (s2, none) => (n2, s2, Except.ok sc.2)
  | (s2, some e) => (n2, s2, Except.error e)

/-- Modelled from the spec: `get(path)` on a resolved node (spec section
4.1): if a publisher is attached, invoke it and return its result — no
caching, no notification; otherwise return the stored value. -/
def pget {σ α : Type} (n : PNode σ α) (s : σ) : σ × α :=
  match n.publisher with
  | some p => p s
  | none => (s, n.value)

/-- The rejecting subscriber installed on every read-only node: it throws
on any write (`throw uhd::runtime_error("Attempting to update ...")` in
the source). -/
def rejectWrite {σ α : Type} : σ → α → Except PtErr σ :=
  fun _ _ => Except.error PtErr.readOnlyWrite

/-- `meta_range_t(start, stop, step)`, modelled with exact rationals. -/
structure MetaRange where
  start : ℚ
  stop : ℚ
  step : ℚ
deriving DecidableEq, Repr

/-! ### Read-only nodes (claim C1)

`_init_frontend_subtree` marks a node read-only by installing a rejecting
coerced subscriber after setting its initial value.  Two representatives,
translated from the source:

* the TX antenna options node (lines 255-261):
  `create(tx_fe_path/"antenna"/"options").set({RHODIUM_DEFAULT_TX_ANTENNA})
   .add_coerced_subscriber(... throw ...)`
* the TX freq range node (lines 287-293):
  `create(tx_fe_path/"freq"/"range")
   .set(meta_range_t(RHODIUM_MIN_FREQ, RHODIUM_MAX_FREQ, 1.0))
   .add_coerced_subscriber(... throw ...)`.

`RHODIUM_MIN_FREQ`/`RHODIUM_MAX_FREQ` come from `rhodium_constants.hpp`,
which is not in this source tree, so the freq-range node is parametrized
by those two bounds.  Neither node has a coercer or a publisher. -/

/-- The TX antenna options node as created by `_init_frontend_subtree`
(source lines 255-261): initial value `{RHODIUM_DEFAULT_TX_ANTENNA}`, no
coercer, no publisher, one rejecting coerced subscriber. -/
def tx_antenna_options_node : PNode Unit (List String) :=
  { value := [RHODIUM_DEFAULT_TX_ANTENNA]
    subscribers := [rejectWrite] }

/-- The TX freq range node as created by `_init_frontend_subtree` (source
lines 287-293): initial value `meta_range_t(RHODIUM_MIN_FREQ,
RHODIUM_MAX_FREQ, 1.0)`, no coercer, no publisher, one rejecting coerced
subscriber.  Parametrized by the device frequency bounds, which live in a
header outside this source tree. -/
def tx_freq_range_node (minFreq maxFreq : ℚ) : PNode Unit MetaRange :=
  { value := ⟨minFreq, maxFreq, 1⟩
    subscribers := [rejectWrite] }

/-! ### Gain-profile nodes (claims C5, C10)

Per direction, the controller keeps one `_gain_profile` entry; the profile
coercer and publisher for every channel of that direction read and write
that single entry (the C++ lambdas capture only `this`, not the channel
index). -/

/-- The controller's `_gain_profile` map, one entry per direction. -/
structure GPState where
  tx : String
  rx : String
deriving DecidableEq, Repr

/-- Read `_gain_profile[dir]`. -/
def GPState.get (s : GPState) : Direction → String
  | Direction.TX => s.tx
  | Direction.RX => s.rx

/-- Write `_gain_profile[dir] = v`. -/
def GPState.put (s : GPState) : Direction → String → GPState
  | Direction.TX, v => { s with tx := v }
  | Direction.RX, v => { s with rx := v }

/-- The `gains/all/profile/value` coercer, translated from source lines
365-373 (TX) and 403-411 (RX): `return_profile = profile; if profile is
not in RHODIUM_GP_OPTIONS, return_profile = "default";
_gain_profile[dir] = return_profile; return return_profile`. -/
def profile_coerce (dir : Direction) (s : GPState) (profile : String) : GPState × String :=
  let return_profile := if RHODIUM_GP_OPTIONS.contains profile then profile else "default"
  (s.put dir return_profile, return_profile)

/-- The `gains/all/profile/value` node as created by
`_init_frontend_subtree` for a given direction and channel (source lines
364-377 and 402-415).  The node is created without an initial `set`, so
its stored value starts empty; the coercer and publisher ignore the
channel index, exactly as the source lambdas capture only `this`. -/
def profile_node (dir : Direction) (_chan : Nat) : PNode GPState String :=
  { value := ""
    coercer := some (profile_coerce dir)
    publisher := some (fun s => (s, s.get dir)) }

/-! ### `_init_defaults` (claims C2, C4, C6)

`_init_defaults` (source lines 101-134) runs one default-writing loop over
the RX channels, one over the TX channels, then computes and writes the
default samples-per-packet.  The `radio_ctrl_impl::set_*` base-class
setters called here are not in this source tree; per the spec
(section 3, Lifecycle) they store the per-channel default values at
default-initialization time, before any hardware is touched.  We record
the loop bodies as an explicit call trace, then interpret the trace over a
stored-state record. -/

/-- One base-class default-setter call made by `_init_defaults`. -/
inductive InitCall
| setRxFrequency (v : ℚ) (chan : Nat)
| setRxGain (v : ℚ) (chan : Nat)
| setRxAntenna (a : String) (chan : Nat)
| setRxBandwidth (v : ℚ) (chan : Nat)
| setTxFrequency (v : ℚ) (chan : Nat)
| setTxGain (v : ℚ) (chan : Nat)
| setTxAntenna (a : String) (chan : Nat)
| setTxBandwidth (v : ℚ) (chan : Nat)
deriving DecidableEq, Repr

/-- The RX default loop of `_init_defaults` (source lines 111-116): for
each RX channel, set frequency, gain (the invalid sentinel), antenna and
bandwidth defaults. -/
def rx_defaults_loop (num_rx_chans : Nat) : List InitCall :=
  (List.range num_rx_chans).flatMap fun chan =>
    [InitCall.setRxFrequency RHODIUM_DEFAULT_FREQ chan,
     InitCall.setRxGain RHODIUM_DEFAULT_INVALID_GAIN chan,
     InitCall.setRxAntenna RHODIUM_DEFAULT_RX_ANTENNA chan,
     InitCall.setRxBandwidth RHODIUM_DEFAULT_BANDWIDTH chan]

/-- The TX default loop of `_init_defaults` (source lines 118-123): for
each TX channel, set TX frequency, TX gain (the invalid sentinel) and TX
antenna — and then, exactly as written on source line 122, call
`set_rx_bandwidth(RHODIUM_DEFAULT_BANDWIDTH, chan)`: the bandwidth call
in the TX loop goes through the RX setter. -/
def tx_defaults_loop (num_tx_chans : Nat) : List InitCall :=
  (List.range num_tx_chans).flatMap fun chan =>
    [InitCall.setTxFrequency RHODIUM_DEFAULT_FREQ chan,
     InitCall.setTxGain RHODIUM_DEFAULT_INVALID_GAIN chan,
     InitCall.setTxAntenna RHODIUM_DEFAULT_TX_ANTENNA chan,
     InitCall.setRxBandwidth RHODIUM_DEFAULT_BANDWIDTH chan]

/-- The full default-setter call trace of `_init_defaults` (source lines
111-123): the RX loop followed by the TX loop.  (The samples-per-packet
write that follows on lines 125-133 goes through the property tree, not
through these setters; it is modelled separately below.) -/
def init_defaults_trace (num_rx_chans num_tx_chans : Nat) : List InitCall :=
  rx_defaults_loop num_rx_chans ++ tx_defaults_loop num_tx_chans

/-- Modelled from the spec: the per-channel stored state written by the
`radio_ctrl_impl` base-class default setters (spec section 3,
ChannelFrontEnd), which are not in this source tree.  Each setter stores
its argument for its channel and direction. -/
structure RadioState where
  rx_freq : Nat → ℚ
  rx_gain : Nat → ℚ
  rx_antenna : Nat → String
  rx_bandwidth : Nat → ℚ
  tx_freq : Nat → ℚ
  tx_gain : Nat → ℚ
  tx_antenna : Nat → String
  tx_bandwidth : Nat → ℚ

/-- Pointwise update of a per-channel map. -/
def chanUpd {β : Type} (f : Nat → β) (chan : Nat) (v : β) : Nat → β :=
  fun c => if c = chan then v else f c

/-- Interpret one default-setter call on the stored state. -/
def stepCall (s : RadioState) : InitCall → RadioState
  | InitCall.setRxFrequency v chan => { s with rx_freq := chanUpd s.rx_freq chan v }
  | InitCall.setRxGain v chan => { s with rx_gain := chanUpd s.rx_gain chan v }
  | InitCall.setRxAntenna a chan => { s with rx_antenna := chanUpd s.rx_antenna chan a }
  | InitCall.setRxBandwidth v chan => { s with rx_bandwidth := chanUpd s.rx_bandwidth chan v }
  | InitCall.setTxFrequency v chan => { s with tx_freq := chanUpd s.tx_freq chan v }
  | InitCall.setTxGain v chan => { s with tx_gain := chanUpd s.tx_gain chan v }
  | InitCall.setTxAntenna a chan => { s with tx_antenna := chanUpd s.tx_antenna chan a }
  | InitCall.setTxBandwidth v chan => { s with tx_bandwidth := chanUpd s.tx_bandwidth chan v }

/-- Run a default-setter call trace from a starting state. -/
def runCalls (calls : List InitCall) (s : RadioState) : RadioState :=
  calls.foldl stepCall s

/-- Modelled from the spec: valid gain values are gain indices in the
device range, all nonnegative (the source's own defaults
`RHODIUM_DEFAULT_GAIN = 0` and `RHODIUM_DEFAULT_LO_GAIN = 30` are gain
indices; the sentinel `-1` is documented as outside the valid range). -/
def validGain (g : ℚ) : Prop := 0 ≤ g

instance (g : ℚ) : Decidable (validGain g) := by
  unfold validGain; infer_instance

/-- The "value unchanged" short-circuit check a gain coercion function may
perform: it skips hardware work exactly when the stored value equals the
requested one. -/
def gainNoOp (stored requested : ℚ) : Prop := stored = requested

instance (a b : ℚ) : Decidable (gainNoOp a b) := by
  unfold gainNoOp; infer_instance

/-! ### Default samples-per-packet (claim C4)

Source lines 125-133:
`max_bytes_header = max_if_hdr_words64 * sizeof(uint64_t)` and
`default_spp = (tree.access("mtu/recv").get() - max_bytes_header) / (2 * sizeof(int16_t))`,
all in `size_t` arithmetic.  `max_if_hdr_words64` comes from
`uhd/transport/chdr.hpp`, outside this source tree, so it is a parameter;
the spec fixes it by protocol (e.g. 4, giving 32 header bytes).  `size_t`
subtraction wraps modulo `2^64`, modelled explicitly. -/

/-- `2^64`, the modulus of `size_t` arithmetic. -/
def SIZE_T_MOD : Nat := 2 ^ 64

/-- `max_bytes_header = max_if_hdr_words64 * sizeof(uint64_t)` (source
lines 126-127). -/
def max_bytes_header (max_if_hdr_words64 : Nat) : Nat :=
  max_if_hdr_words64 * 8

/-- `default_spp` exactly as computed on source lines 128-130, with
`size_t` subtraction modelled as wrapping addition of the two's
complement: `(mtu_recv - max_bytes_header) / (2 * sizeof(int16_t))`. -/
def default_spp (mtu_recv max_if_hdr_words64 : Nat) : Nat :=
  ((mtu_recv + (SIZE_T_MOD - max_bytes_header max_if_hdr_words64 % SIZE_T_MOD)) % SIZE_T_MOD)
    / (2 * 2)

/-- The `spp` value node (`get_arg_path("spp") / "value"`, an `int`
property) holding a previously loaded default: plain stored node, no
coercer, no publisher, no subscribers visible at this call site. -/
def spp_node (prev : Int) : PNode Unit Int :=
  { value := prev }

/-! ### `_init_peripherals` bring-up order (claim C8)

`_init_peripherals` (source lines 136-205) is a straight-line sequence of
hardware constructions and writes.  We record it as an event trace, one
event per construction or hardware write, in source order.  The LO
identifier argument of the LO-gain writes is `RHODIUM_LO1` (a constant
from a header outside this source tree); it plays no role in the ordering,
so the events carry only the numeric payloads that are visible in this
file. -/

/-- One step of `_init_peripherals`, in the source's vocabulary. -/
inductive PeriphStep
| initSpiCore
| initCpld
| writeTxGain (v : ℚ) (chan : Nat)
| writeTxLoGain (v : ℚ) (chan : Nat)
| writeRxGain (v : ℚ) (chan : Nat)
| writeRxLoGain (v : ℚ) (chan : Nat)
| initTxLo
| setTxLoRefFreq
| setTxLoMashOrder
| initRxLo
| setRxLoRefFreq
| setRxLoMashOrder
| initGpio
| setGpioAtrMode
| setGpioDdr
| setGpioOut
| initRxFeCore
| configRxFeCore
| initTxFeCore
| configTxFeCore
deriving DecidableEq, Repr

/-- The event trace of `_init_peripherals`, in source order (lines
136-205): SPI core (141), CPLD (147), the four initial gain writes
(152-155), TX LO construction and configuration (158-164), RX LO
construction and configuration (167-173), GPIO construction and
configuration (176-193), RX frontend core (195-199), TX frontend core
(201-204). -/
def init_peripherals_trace : List PeriphStep :=
  [PeriphStep.initSpiCore,
   PeriphStep.initCpld,
   PeriphStep.writeTxGain RHODIUM_DEFAULT_GAIN 0,
   PeriphStep.writeTxLoGain RHODIUM_DEFAULT_LO_GAIN 0,
   PeriphStep.writeRxGain RHODIUM_DEFAULT_GAIN 0,
   PeriphStep.writeRxLoGain RHODIUM_DEFAULT_LO_GAIN 0,
   PeriphStep.initTxLo,
   PeriphStep.setTxLoRefFreq,
   PeriphStep.setTxLoMashOrder,
   PeriphStep.initRxLo,
   PeriphStep.setRxLoRefFreq,
   PeriphStep.setRxLoMashOrder,
   PeriphStep.initGpio,
   PeriphStep.setGpioAtrMode,
   PeriphStep.setGpioDdr,
   PeriphStep.setGpioOut,
   PeriphStep.initRxFeCore,
   PeriphStep.configRxFeCore,
   PeriphStep.initTxFeCore,
   PeriphStep.configTxFeCore]

/-- Whether a step is one of the initial gain writes (source lines
152-155). -/
def isGainWrite : PeriphStep → Bool
  | PeriphStep.writeTxGain _ _ => true
  | PeriphStep.writeTxLoGain _ _ => true
  | PeriphStep.writeRxGain _ _ => true
  | PeriphStep.writeRxLoGain _ _ => true
  | _ => false

/-- Whether a step instantiates an oscillator synthesizer (`lmx2592_iface::make`,
source lines 158 and 167). -/
def isOscInit : PeriphStep → Bool
  | PeriphStep.initTxLo => true
  | PeriphStep.initRxLo => true
  | _ => false

/-- Whether a step constructs a frontend correction core (source lines 195
and 201). -/
def isFeCoreInit : PeriphStep → Bool
  | PeriphStep.initRxFeCore => true
  | PeriphStep.initTxFeCore => true
  | _ => false

/-! ### Property paths created by `_init_frontend_subtree` (claim C3)

`fs_path` joins segments with `/`.  `_init_frontend_subtree` receives the
subtree rooted at `dboards/<slot>`, so all paths below are relative to
that root.  `RHODIUM_LO1`, `RHODIUM_LO2`, `RHODIUM_LO_GAIN` and
`RHODIUM_LO_POWER` come from `rhodium_constants.hpp`, outside this source
tree, so the path list is parametrized by those four segment strings.
Every `create` call of `_init_frontend_subtree` (source lines 211-652)
appears below, in source order, with its path spelled exactly as the
string literals in the source — including the trailing space of
`"freq/value "` on source line 552 (TX LO1 frequency value). -/

/-- `fs_path` `/`-join. -/
def pjoin (a b : String) : String := a ++ "/" ++ b

/-- `fs_path("tx_frontends") / chan_idx` (source line 211). -/
def tx_fe_path (chan_idx : Nat) : String := pjoin "tx_frontends" (toString chan_idx)

/-- `fs_path("rx_frontends") / chan_idx` (source line 212). -/
def rx_fe_path (chan_idx : Nat) : String := pjoin "rx_frontends" (toString chan_idx)

/-- The path at which source line 552 creates the TX LO1 frequency value
node: `tx_fe_path / "los" / RHODIUM_LO1 / "freq/value "` — note the
trailing space inside the string literal. -/
def tx_lo1_freq_value_path (chan_idx : Nat) (lo1 : String) : String :=
  pjoin (pjoin (pjoin (tx_fe_path chan_idx) "los") lo1) "freq/value "

/-- All paths created by `_init_frontend_subtree` for one channel, in
source order (lines 217-652), parametrized by the four constant segment
strings that live outside this source tree. -/
def frontend_subtree_paths (chan_idx : Nat) (lo1 lo2 loGain loPower : String) : List String :=
  let tx := tx_fe_path chan_idx
  let rx := rx_fe_path chan_idx
  [pjoin tx "name",
   pjoin tx "connection",
   pjoin tx "tune_args",
   pjoin rx "name",
   pjoin rx "connection",
   pjoin rx "tune_args",
   pjoin (pjoin tx "antenna") "value",
   pjoin (pjoin tx "antenna") "options",
   pjoin (pjoin rx "antenna") "value",
   pjoin (pjoin rx "antenna") "options",
   pjoin (pjoin tx "freq") "value",
   pjoin (pjoin tx "freq") "range",
   pjoin (pjoin rx "freq") "value",
   pjoin (pjoin rx "freq") "range",
   pjoin (pjoin tx "bandwidth") "value",
   pjoin (pjoin tx "bandwidth") "range",
   pjoin (pjoin rx "bandwidth") "value",
   pjoin (pjoin rx "bandwidth") "range",
   pjoin (pjoin (pjoin tx "gains") "all") "value",
   pjoin (pjoin (pjoin tx "gains") "all") "range",
   pjoin tx "gains/all/profile/options",
   pjoin tx "gains/all/profile/value",
   pjoin (pjoin (pjoin rx "gains") "all") "value",
   pjoin (pjoin (pjoin rx "gains") "all") "range",
   pjoin rx "gains/all/profile/options",
   pjoin rx "gains/all/profile/value",
   pjoin (pjoin tx "sensors") "lo_locked",
   pjoin (pjoin rx "sensors") "lo_locked",
   pjoin (pjoin (pjoin rx "los") lo1) "freq/value",
   pjoin (pjoin (pjoin rx "los") lo1) "freq/range",
   pjoin (pjoin (pjoin rx "los") lo1) "source/options",
   pjoin (pjoin (pjoin rx "los") lo1) "source/value",
   pjoin (pjoin (pjoin rx "los") lo1) "export",
   pjoin (pjoin (pjoin (pjoin (pjoin rx "los") lo1) "gains") loGain) "value",
   pjoin (pjoin (pjoin (pjoin (pjoin rx "los") lo1) "gains") loGain) "range",
   pjoin (pjoin (pjoin (pjoin (pjoin rx "los") lo1) "gains") loPower) "value",
   pjoin (pjoin (pjoin (pjoin (pjoin rx "los") lo1) "gains") loPower) "range",
   pjoin (pjoin (pjoin rx "los") lo2) "freq/value",
   pjoin (pjoin (pjoin rx "los") lo2) "freq/range",
   pjoin (pjoin (pjoin rx "los") lo2) "source/options",
   pjoin (pjoin (pjoin rx "los") lo2) "source/value",
   pjoin (pjoin (pjoin rx "los") lo2) "export",
   tx_lo1_freq_value_path chan_idx lo1,
   pjoin (pjoin (pjoin tx "los") lo1) "freq/range",
   pjoin (pjoin (pjoin tx "los") lo1) "source/options",
   pjoin (pjoin (pjoin tx "los") lo1) "source/value",
   pjoin (pjoin (pjoin tx "los") lo1) "export",
   pjoin (pjoin (pjoin (pjoin (pjoin tx "los") lo1) "gains") loGain) "value",
   pjoin (pjoin (pjoin (pjoin (pjoin tx "los") lo1) "gains") loGain) "range",
   pjoin (pjoin (pjoin (pjoin (pjoin tx "los") lo1) "gains") loPower) "value",
   pjoin (pjoin (pjoin (pjoin (pjoin tx "los") lo1) "gains") loPower) "range",
   pjoin (pjoin (pjoin tx "los") lo2) "freq/value",
   pjoin (pjoin (pjoin tx "los") lo2) "freq/range",
   pjoin (pjoin (pjoin tx "los") lo2) "source/options",
   pjoin (pjoin (pjoin tx "los") lo2) "source/value",
   pjoin (pjoin (pjoin tx "los") lo2) "export"]

/-! ### Remote (MPM) sensor nodes (claim C7)

`_init_mpm_sensors` (source lines 678-709) creates, for each discovered
sensor name, one node with a rejecting coerced subscriber and a publisher
that performs a `request_with_token("<rpc-method-base>get_sensor", trx,
sensor_name, chan_idx)` remote call on every invocation.  The Remote
Peripheral Client is an external collaborator; we model its world as a
log of the remote calls made so far plus an environment function giving
the remote's reply to the n-th call — so two reads that each make a fresh
call can observe different replies, which no cache could produce. -/

/-- One `request_with_token` remote call, with the argument tuple the
sensor publisher passes (source lines 702-704). -/
structure RpcCall where
  method : String
  trx : String
  sensor : String
  chan : Nat
deriving DecidableEq, Repr

/-- The observable world of the Remote Peripheral Client: the ordered log
of remote calls made so far, and the environment's reply to the n-th call
(replies modelled as opaque strings standing for sensor maps). -/
structure SensorWorld where
  log : List RpcCall
  reply : Nat → String

/-- Perform one `request_with_token` call: append it to the log and return
the environment's reply for this call's position. -/
def rpcRequest (w : SensorWorld) (c : RpcCall) : SensorWorld × String :=
  ({ w with log := w.log ++ [c] }, w.reply w.log.length)

/-- A sensor node as created by `_init_mpm_sensors` (source lines
695-707): a rejecting coerced subscriber, and a publisher that performs a
fresh `get_sensor` remote call on every read.  `rpcBase` stands for the
controller's RPC method namespace string that is prepended to
`"get_sensor"`; it lives outside this source tree.  The node is created
without an initial `set`, so its stored value starts empty — and is never
consulted, since the publisher is attached. -/
def mpm_sensor_node (rpcBase trx sensor_name : String) (chan_idx : Nat) :
    PNode SensorWorld String :=
  { value := ""
    publisher := some (fun w => rpcRequest w ⟨rpcBase ++ "get_sensor", trx, sensor_name, chan_idx⟩)
    subscribers := [rejectWrite] }

/-! ### TX LO frequency-range publishers (claim C9)

The TX LO1 `freq/range` node's publisher (source lines 560-563) calls
`get_rx_lo_freq_range(RHODIUM_LO1, chan_idx)`, while the TX LO2
`freq/range` node's publisher (source lines 628-631) calls
`get_tx_lo_freq_range(RHODIUM_LO2, chan_idx)`.  The two getters are
implemented elsewhere in the repository; per the spec (section 3, LOStage)
each derives a live range from its own direction's synthesizer
configuration, so we model them as two abstract environment functions. -/

/-- Modelled from the spec: the controller's live LO frequency-range
getters, each a function of the LO identifier and channel, derived from
the corresponding direction's synthesizer configuration
(`get_rx_lo_freq_range` from the RX synthesizer, `get_tx_lo_freq_range`
from the TX synthesizer). -/
structure LoRangeEnv where
  rx_lo_freq_range : String → Nat → MetaRange
  tx_lo_freq_range : String → Nat → MetaRange

/-- The TX LO1 `freq/range` node as created on source lines 560-563: no
initial `set`, publisher calls `get_rx_lo_freq_range(RHODIUM_LO1,
chan_idx)` — the RX getter, exactly as in the source. -/
def tx_lo1_freq_range_node (lo1 : String) (chan_idx : Nat) : PNode LoRangeEnv MetaRange :=
  { value := ⟨0, 0, 0⟩
    publisher := some (fun e => (e, e.rx_lo_freq_range lo1 chan_idx)) }

/-- The TX LO2 `freq/range` node as created on source lines 628-632: no
initial `set`, publisher calls `get_tx_lo_freq_range(RHODIUM_LO2,
chan_idx)`. -/
def tx_lo2_freq_range_node (lo2 : String) (chan_idx : Nat) : PNode LoRangeEnv MetaRange :=
  { value := ⟨0, 0, 0⟩
    publisher := some (fun e => (e, e.tx_lo_freq_range lo2 chan_idx)) }

/-! ## Theorems -/

/-- `_gain_profile[dir] = v` followed by reading `_gain_profile[dir]`
yields `v`. -/
theorem GPState.get_put (s : GPState) (dir : Direction) (v : String) :
    (s.put dir v).get dir = v := by
  cases dir <;> rfl

/-- C1, counterexample.  The claim asserts that a write to a read-only
node both fails with `ReadOnlyWriteError` and leaves the stored value
unchanged.  At the concrete input `["X"]` on the TX antenna options node,
the write does fail with `ReadOnlyWriteError`, but the stored value is
NOT unchanged: the engine stores the value before notifying the rejecting
subscriber, so the failed write leaves `["X"]` stored in place of the
original `["TX/RX"]`. -/
theorem c1_readonly_atomicity_cex :
    (pset tx_antenna_options_node () ["X"]).2.2 = Except.error PtErr.readOnlyWrite
    ∧ (pset tx_antenna_options_node () ["X"]).1.value ≠ tx_antenna_options_node.value := by
  exact ⟨rfl, by decide⟩

/-- C1, amended.  For the read-only nodes created by the controller (the
TX antenna options node and the TX freq range node, each a node whose
coerced subscriber throws on any write), `set(path, v)` fails with
`ReadOnlyWriteError` — but the node's stored value is NOT left unchanged:
the store happens before subscriber notification, so the failed write
leaves the requested value `v` stored. -/
theorem c1_readonly_write_fails_but_stores (v : List String) (minFreq maxFreq : ℚ)
    (r : MetaRange) :
    ((pset tx_antenna_options_node () v).2.2 = Except.error PtErr.readOnlyWrite
      ∧ (pset tx_antenna_options_node () v).1.value = v)
    ∧ ((pset (tx_freq_range_node minFreq maxFreq) () r).2.2 = Except.error PtErr.readOnlyWrite
      ∧ (pset (tx_freq_range_node minFreq maxFreq) () r).1.value = r) :=
  ⟨⟨rfl, rfl⟩, ⟨rfl, rfl⟩⟩

/-- C5.  Writing any profile name outside the gain-profile option set
`{"default"}` to a `gains/all/profile/value` node is coerced to
`"default"`: the write succeeds (no error), the coercion result echoed by
`set` is `"default"`, the value stored in `_gain_profile` for that
direction is `"default"`, and the profile node's publisher subsequently
returns `"default"`. -/
theorem c5_unknown_profile_normalizes (dir : Direction) (chan : Nat) (s : GPState)
    (name : String) (h : RHODIUM_GP_OPTIONS.contains name = false) :
    (pset (profile_node dir chan) s name).2.2 = Except.ok "default"
    ∧ ((pset (profile_node dir chan) s name).2.1).get dir = "default"
    ∧ (pget (profile_node dir chan) (pset (profile_node dir chan) s name).2.1).2
        = "default" := by
  have h' : name ∉ RHODIUM_GP_OPTIONS := by simpa using h
  refine ⟨?_, ?_, ?_⟩ <;>
    simp [pset, pget, profile_node, profile_coerce, runSubs, h', GPState.get_put]

/-- C5, witness at direction TX, channel 0, profile name `"fancy"`. -/
theorem c5_unknown_profile_normalizes_witness :
    (pset (profile_node Direction.TX 0) ⟨"default", "default"⟩ "fancy").2.2
        = Except.ok "default"
    ∧ ((pset (profile_node Direction.TX 0) ⟨"default", "default"⟩ "fancy").2.1).get
        Direction.TX = "default"
    ∧ (pget (profile_node Direction.TX 0)
        (pset (profile_node Direction.TX 0) ⟨"default", "default"⟩ "fancy").2.1).2
        = "default" :=
  c5_unknown_profile_normalizes Direction.TX 0 ⟨"default", "default"⟩ "fancy" (by decide)

/-- C10.  Gain-profile state is scoped per direction only, not per
channel: the profile node installed for any two channel indices of the
same direction is one and the same node behavior, and after a profile
write through channel `chanA`'s node, channel `chanB`'s profile publisher
returns the just-coerced value, which `set` also echoed. -/
theorem c10_profile_state_per_direction (dir : Direction) (chanA chanB : Nat)
    (s : GPState) (name : String) :
    profile_node dir chanA = profile_node dir chanB
    ∧ (pget (profile_node dir chanB) (pset (profile_node dir chanA) s name).2.1).2
        = (if RHODIUM_GP_OPTIONS.contains name then name else "default")
    ∧ (pset (profile_node dir chanA) s name).2.2
        = Except.ok (if RHODIUM_GP_OPTIONS.contains name then name else "default") := by
  refine ⟨rfl, ?_, ?_⟩ <;>
    simp [pset, pget, profile_node, profile_coerce, runSubs, GPState.get_put]

/-- C9.  The TX LO1 `freq/range` node's publisher returns the result of
`get_rx_lo_freq_range` — the RX synthesizer-derived range — while the TX
LO2 `freq/range` node's publisher returns the result of
`get_tx_lo_freq_range`; so every read of the TX LO1 range node reflects
the RX getter's configuration. -/
theorem c9_tx_lo1_range_uses_rx_getter (e : LoRangeEnv) (lo1 lo2 : String)
    (chan : Nat) :
    (pget (tx_lo1_freq_range_node lo1 chan) e).2 = e.rx_lo_freq_range lo1 chan
    ∧ (pget (tx_lo2_freq_range_node lo2 chan) e).2 = e.tx_lo_freq_range lo2 chan :=
  ⟨rfl, rfl⟩

/-- C4.  The default samples-per-packet written by `_init_defaults`
equals `(mtu_recv − max_if_hdr_words64 × 8) / (2 × 2)` in exact integer
arithmetic whenever the header fits in the MTU and the MTU fits in
`size_t`; for `mtu_recv = 8000` and `max_if_hdr_words64 = 4` the written
value is `(8000 − 32) / 4 = 1992`; and the write into the `spp` value
node stores that value regardless of any previously loaded default. -/
theorem c4_default_spp_formula (mtu_recv w : Nat) (prev : Int)
    (h1 : max_bytes_header w ≤ mtu_recv) (h2 : mtu_recv < SIZE_T_MOD) :
    default_spp mtu_recv w = (mtu_recv - w * 8) / (2 * 2)
    ∧ default_spp 8000 4 = 1992
    ∧ (pset (spp_node prev) () (default_spp mtu_recv w : Int)).1.value
        = (default_spp mtu_recv w : Int)
    ∧ (pset (spp_node prev) () (default_spp mtu_recv w : Int)).2.2
        = Except.ok (default_spp mtu_recv w : Int) := by
  refine ⟨?_, by decide, rfl, rfl⟩
  simp only [default_spp, max_bytes_header, SIZE_T_MOD] at *
  omega

/-- C4, witness at `mtu_recv = 8000`, `max_if_hdr_words64 = 4`, previous
spp default 7. -/
theorem c4_default_spp_formula_witness :
    default_spp 8000 4 = (8000 - 4 * 8) / (2 * 2)
    ∧ default_spp 8000 4 = 1992
    ∧ (pset (spp_node 7) () (default_spp 8000 4 : Int)).1.value
        = (default_spp 8000 4 : Int)
    ∧ (pset (spp_node 7) () (default_spp 8000 4 : Int)).2.2
        = Except.ok (default_spp 8000 4 : Int) :=
  c4_default_spp_formula 8000 4 7 (by decide) (by decide)

/-- C2.  In `_init_defaults`, for every TX channel the TX
default-initialization loop writes the default bandwidth through the RX
bandwidth setter — `set_rx_bandwidth(RHODIUM_DEFAULT_BANDWIDTH, chan)`
appears in the TX loop — and no call through the TX bandwidth setter
occurs anywhere in the default-initialization trace, so the TX bandwidth
default is never written through the TX path. -/
theorem c2_tx_loop_uses_rx_bandwidth_setter (num_rx_chans num_tx_chans chan : Nat)
    (v : ℚ) (c : Nat) (h : chan < num_tx_chans) :
    InitCall.setRxBandwidth RHODIUM_DEFAULT_BANDWIDTH chan ∈ tx_defaults_loop num_tx_chans
    ∧ InitCall.setTxBandwidth v c ∉ init_defaults_trace num_rx_chans num_tx_chans := by
  constructor
  · exact List.mem_flatMap.mpr ⟨chan, List.mem_range.mpr h, by simp⟩
  · intro hmem
    simp only [init_defaults_trace, rx_defaults_loop, tx_defaults_loop, List.mem_append,
      List.mem_flatMap, List.mem_cons, List.not_mem_nil, or_false] at hmem
    rcases hmem with ⟨a, -, h1⟩ | ⟨a, -, h1⟩ <;> simp at h1

/-- C2, witness at one TX channel (`num_tx_chans = 1`, `chan = 0`) against
a putative TX-path write `set_tx_bandwidth(RHODIUM_DEFAULT_BANDWIDTH, 0)`. -/
theorem c2_tx_loop_uses_rx_bandwidth_setter_witness :
    InitCall.setRxBandwidth RHODIUM_DEFAULT_BANDWIDTH 0 ∈ tx_defaults_loop 1
    ∧ InitCall.setTxBandwidth RHODIUM_DEFAULT_BANDWIDTH 0 ∉ init_defaults_trace 1 1 :=
  c2_tx_loop_uses_rx_bandwidth_setter 1 1 0 RHODIUM_DEFAULT_BANDWIDTH 0 (by decide)

/-- C3.  The claim says a frequency value node exists at exactly
`{rx,tx}_frontends/<chan>/los/<lo-id>/freq/value` for every direction and
LO stage, with no extra characters in the final segment.  Evaluating the
path construction of `_init_frontend_subtree` at channel 0 with LO
identifier segments `"lo1"`/`"lo2"`: the RX LO1, RX LO2 and TX LO2 value
nodes are created at exactly the claimed paths, but the TX LO1 node is
created at `"tx_frontends/0/los/lo1/freq/value "` — with a trailing space
from the string literal `"freq/value "` on source line 552 — and no node
is created at the claimed path `"tx_frontends/0/los/lo1/freq/value"`. -/
theorem c3_tx_lo1_freq_value_trailing_space :
    tx_lo1_freq_value_path 0 "lo1" = "tx_frontends/0/los/lo1/freq/value "
    ∧ "tx_frontends/0/los/lo1/freq/value"
        ∉ frontend_subtree_paths 0 "lo1" "lo2" "lo_gain" "lo_power"
    ∧ "tx_frontends/0/los/lo1/freq/value "
        ∈ frontend_subtree_paths 0 "lo1" "lo2" "lo_gain" "lo_power"
    ∧ "rx_frontends/0/los/lo1/freq/value"
        ∈ frontend_subtree_paths 0 "lo1" "lo2" "lo_gain" "lo_power"
    ∧ "rx_frontends/0/los/lo2/freq/value"
        ∈ frontend_subtree_paths 0 "lo1" "lo2" "lo_gain" "lo_power"
    ∧ "tx_frontends/0/los/lo2/freq/value"
        ∈ frontend_subtree_paths 0 "lo1" "lo2" "lo_gain" "lo_power" := by
  decide

/-- C7.  On the spec-modelled engine, a `get` on any node with a publisher
invokes the publisher and returns its result (no cached value is
consulted); instantiated at a remote sensor node created by
`_init_mpm_sensors`, two consecutive reads perform two fresh
`request_with_token` remote calls — the call log grows by one
`get_sensor` call per read, and each read returns the environment's reply
to its own call, so nothing is stored between reads. -/
theorem c7_publisher_reads_are_live {σ α : Type} (n : PNode σ α) (p : σ → σ × α)
    (s : σ) (hp : n.publisher = some p) (rpcBase trx sensor_name : String)
    (chan : Nat) (w : SensorWorld) :
    pget n s = p s
    ∧ (pget (mpm_sensor_node rpcBase trx sensor_name chan) w).1.log
        = w.log ++ [⟨rpcBase ++ "get_sensor", trx, sensor_name, chan⟩]
    ∧ (pget (mpm_sensor_node rpcBase trx sensor_name chan)
          (pget (mpm_sensor_node rpcBase trx sensor_name chan) w).1).1.log
        = w.log ++ [⟨rpcBase ++ "get_sensor", trx, sensor_name, chan⟩,
                    ⟨rpcBase ++ "get_sensor", trx, sensor_name, chan⟩]
    ∧ (pget (mpm_sensor_node rpcBase trx sensor_name chan) w).2
        = w.reply w.log.length
    ∧ (pget (mpm_sensor_node rpcBase trx sensor_name chan)
          (pget (mpm_sensor_node rpcBase trx sensor_name chan) w).1).2
        = w.reply (w.log.length + 1) := by
  refine ⟨?_, ?_, ?_, rfl, ?_⟩
  · simp [pget, hp]
  · rfl
  · simp [pget, mpm_sensor_node, rpcRequest]
  · simp [pget, mpm_sensor_node, rpcRequest]

/-- C7, witness: the sensor node for TX sensor `"temp"` on channel 0, in a
world with an empty call log whose remote replies differ between the
first and second call. -/
theorem c7_publisher_reads_are_live_witness :
    pget (mpm_sensor_node "db_0_" "TX" "temp" 0)
        (SensorWorld.mk [] (fun k => toString k))
      = (fun w => rpcRequest w ⟨"db_0_" ++ "get_sensor", "TX", "temp", 0⟩)
          (SensorWorld.mk [] (fun k => toString k))
    ∧ (pget (mpm_sensor_node "db_0_" "TX" "temp" 0)
        (SensorWorld.mk [] (fun k => toString k))).1.log
        = [] ++ [⟨"db_0_" ++ "get_sensor", "TX", "temp", 0⟩]
    ∧ (pget (mpm_sensor_node "db_0_" "TX" "temp" 0)
          (pget (mpm_sensor_node "db_0_" "TX" "temp" 0)
            (SensorWorld.mk [] (fun k => toString k))).1).1.log
        = [] ++ [⟨"db_0_" ++ "get_sensor", "TX", "temp", 0⟩,
                 ⟨"db_0_" ++ "get_sensor", "TX", "temp", 0⟩]
    ∧ (pget (mpm_sensor_node "db_0_" "TX" "temp" 0)
        (SensorWorld.mk [] (fun k => toString k))).2
        = (SensorWorld.mk ([] : List RpcCall) (fun k => toString k)).reply
            (List.length ([] : List RpcCall))
    ∧ (pget (mpm_sensor_node "db_0_" "TX" "temp" 0)
          (pget (mpm_sensor_node "db_0_" "TX" "temp" 0)
            (SensorWorld.mk [] (fun k => toString k))).1).2
        = (SensorWorld.mk ([] : List RpcCall) (fun k => toString k)).reply
            (List.length ([] : List RpcCall) + 1) :=
  c7_publisher_reads_are_live (mpm_sensor_node "db_0_" "TX" "temp" 0)
    (fun w => rpcRequest w ⟨"db_0_" ++ "get_sensor", "TX", "temp", 0⟩)
    (SensorWorld.mk [] (fun k => toString k)) rfl "db_0_" "TX" "temp" 0
    (SensorWorld.mk [] (fun k => toString k))

/-- C8, counterexample.  The claim asserts initial gain writes occur only
after both oscillator synthesizers are instantiated.  In the
`_init_peripherals` trace, the first gain write is at position 2 while the
TX oscillator is instantiated at position 6, so the claimed ordering
(every oscillator instantiation before every gain write) fails. -/
theorem c8_gain_writes_before_oscillators_cex :
    isGainWrite (init_peripherals_trace.getD 2 PeriphStep.initSpiCore) = true
    ∧ isOscInit (init_peripherals_trace.getD 6 PeriphStep.initSpiCore) = true
    ∧ ¬ (∀ i, i < init_peripherals_trace.length → ∀ j, j < init_peripherals_trace.length →
          isGainWrite (init_peripherals_trace.getD i PeriphStep.initSpiCore) = true →
          isOscInit (init_peripherals_trace.getD j PeriphStep.initSpiCore) = true →
          j < i) := by
  decide

/-- C8, amended.  Controller bring-up initializes hardware in the order
bus core (SPI), then chip-select binding (CPLD), then the initial gain
writes, then the TX and RX oscillator synthesizers, then the frontend
cores: the SPI core is step 0 and the CPLD step 1, every initial gain
write comes after the CPLD and BEFORE every oscillator instantiation, and
every oscillator instantiation comes before every frontend-core
construction. -/
theorem c8_bringup_order :
    init_peripherals_trace.getD 0 PeriphStep.initGpio = PeriphStep.initSpiCore
    ∧ init_peripherals_trace.getD 1 PeriphStep.initGpio = PeriphStep.initCpld
    ∧ (∀ i, i < init_peripherals_trace.length →
        isGainWrite (init_peripherals_trace.getD i PeriphStep.initSpiCore) = true → 1 < i)
    ∧ (∀ i, i < init_peripherals_trace.length → ∀ j, j < init_peripherals_trace.length →
        isGainWrite (init_peripherals_trace.getD i PeriphStep.initSpiCore) = true →
        isOscInit (init_peripherals_trace.getD j PeriphStep.initSpiCore) = true →
        i < j)
    ∧ (∀ i, i < init_peripherals_trace.length → ∀ j, j < init_peripherals_trace.length →
        isOscInit (init_peripherals_trace.getD i PeriphStep.initSpiCore) = true →
        isFeCoreInit (init_peripherals_trace.getD j PeriphStep.initSpiCore) = true →
        i < j) := by
  decide

/-- Running an appended trace runs the first part, then the second. -/
theorem runCalls_append (l1 l2 : List InitCall) (s : RadioState) :
    runCalls (l1 ++ l2) s = runCalls l2 (runCalls l1 s) := by
  simp [runCalls, List.foldl_append]

/-- After the RX default loop, every RX channel's stored gain is the
invalid sentinel. -/
theorem rx_loop_sets_rx_gain (n : Nat) :
    ∀ (s : RadioState) (chan : Nat), chan < n →
      (runCalls (rx_defaults_loop n) s).rx_gain chan = RHODIUM_DEFAULT_INVALID_GAIN := by
  induction n with
  | zero => intro s chan h; exact absurd h (Nat.not_lt_zero chan)
  | succ m ih =>
    intro s chan h
    have hsplit : rx_defaults_loop (m + 1)
        = rx_defaults_loop m ++
          [InitCall.setRxFrequency RHODIUM_DEFAULT_FREQ m,
           InitCall.setRxGain RHODIUM_DEFAULT_INVALID_GAIN m,
           InitCall.setRxAntenna RHODIUM_DEFAULT_RX_ANTENNA m,
           InitCall.setRxBandwidth RHODIUM_DEFAULT_BANDWIDTH m] := by
      simp [rx_defaults_loop, List.range_succ]
    rw [hsplit, runCalls_append]
    by_cases hc : chan = m
    · subst hc
      simp [runCalls, stepCall, chanUpd]
    · have hlt : chan < m := by omega
      simp only [runCalls, List.foldl_cons, List.foldl_nil, stepCall, chanUpd]
      simp only [if_neg hc]
      exact ih s chan hlt

/-- The TX default loop never touches any stored RX gain: its four calls
per channel are TX frequency, TX gain, TX antenna — and the RX bandwidth
setter, which writes RX bandwidth only. -/
theorem tx_loop_preserves_rx_gain (n : Nat) :
    ∀ s : RadioState, (runCalls (tx_defaults_loop n) s).rx_gain = s.rx_gain := by
  induction n with
  | zero => intro s; simp [tx_defaults_loop, runCalls]
  | succ m ih =>
    intro s
    have hsplit : tx_defaults_loop (m + 1)
        = tx_defaults_loop m ++
          [InitCall.setTxFrequency RHODIUM_DEFAULT_FREQ m,
           InitCall.setTxGain RHODIUM_DEFAULT_INVALID_GAIN m,
           InitCall.setTxAntenna RHODIUM_DEFAULT_TX_ANTENNA m,
           InitCall.setRxBandwidth RHODIUM_DEFAULT_BANDWIDTH m] := by
      simp [tx_defaults_loop, List.range_succ]
    rw [hsplit, runCalls_append]
    simp only [runCalls, List.foldl_cons, List.foldl_nil, stepCall]
    exact ih s

/-- After the TX default loop, every TX channel's stored gain is the
invalid sentinel. -/
theorem tx_loop_sets_tx_gain (n : Nat) :
    ∀ (s : RadioState) (chan : Nat), chan < n →
      (runCalls (tx_defaults_loop n) s).tx_gain chan = RHODIUM_DEFAULT_INVALID_GAIN := by
  induction n with
  | zero => intro s chan h; exact absurd h (Nat.not_lt_zero chan)
  | succ m ih =>
    intro s chan h
    have hsplit : tx_defaults_loop (m + 1)
        = tx_defaults_loop m ++
          [InitCall.setTxFrequency RHODIUM_DEFAULT_FREQ m,
           InitCall.setTxGain RHODIUM_DEFAULT_INVALID_GAIN m,
           InitCall.setTxAntenna RHODIUM_DEFAULT_TX_ANTENNA m,
           InitCall.setRxBandwidth RHODIUM_DEFAULT_BANDWIDTH m] := by
      simp [tx_defaults_loop, List.range_succ]
    rw [hsplit, runCalls_append]
    by_cases hc : chan = m
    · subst hc
      simp [runCalls, stepCall, chanUpd]
    · have hlt : chan < m := by omega
      simp only [runCalls, List.foldl_cons, List.foldl_nil, stepCall, chanUpd]
      simp only [if_neg hc]
      exact ih s chan hlt

/-- C6.  After `_init_defaults` and before any explicit gain write, every
channel's stored gain (RX and TX) is the documented invalid sentinel
`RHODIUM_DEFAULT_INVALID_GAIN = -1`, which differs from every valid
(nonnegative) gain value — in particular from `RHODIUM_DEFAULT_GAIN` —
so a coercion that short-circuits on "stored value equals requested
value" never fires on the first explicit gain set. -/
theorem c6_initial_gain_is_invalid_sentinel (num_rx_chans num_tx_chans chan : Nat)
    (s0 : RadioState) (g : ℚ) (hrx : chan < num_rx_chans) (htx : chan < num_tx_chans)
    (hg : validGain g) :
    (runCalls (init_defaults_trace num_rx_chans num_tx_chans) s0).rx_gain chan
        = RHODIUM_DEFAULT_INVALID_GAIN
    ∧ (runCalls (init_defaults_trace num_rx_chans num_tx_chans) s0).tx_gain chan
        = RHODIUM_DEFAULT_INVALID_GAIN
    ∧ ¬ gainNoOp RHODIUM_DEFAULT_INVALID_GAIN g
    ∧ RHODIUM_DEFAULT_INVALID_GAIN ≠ RHODIUM_DEFAULT_GAIN := by
  refine ⟨?_, ?_, ?_, by norm_num [RHODIUM_DEFAULT_INVALID_GAIN, RHODIUM_DEFAULT_GAIN]⟩
  · simp only [init_defaults_trace]
    rw [runCalls_append, tx_loop_preserves_rx_gain]
    exact rx_loop_sets_rx_gain num_rx_chans s0 chan hrx
  · simp only [init_defaults_trace]
    rw [runCalls_append]
    exact tx_loop_sets_tx_gain num_tx_chans _ chan htx
  · intro hno
    have hEq : RHODIUM_DEFAULT_INVALID_GAIN = g := hno
    have hgq : (0 : ℚ) ≤ g := hg
    rw [← hEq] at hgq
    norm_num [RHODIUM_DEFAULT_INVALID_GAIN] at hgq

/-- C6, witness: one RX and one TX channel, channel 0, a zero-initialized
starting state, and the valid gain value `0` (`RHODIUM_DEFAULT_GAIN`). -/
theorem c6_initial_gain_is_invalid_sentinel_witness :
    (runCalls (init_defaults_trace 1 1)
        ⟨fun _ => 0, fun _ => 0, fun _ => "", fun _ => 0,
         fun _ => 0, fun _ => 0, fun _ => "", fun _ => 0⟩).rx_gain 0
        = RHODIUM_DEFAULT_INVALID_GAIN
    ∧ (runCalls (init_defaults_trace 1 1)
        ⟨fun _ => 0, fun _ => 0, fun _ => "", fun _ => 0,
         fun _ => 0, fun _ => 0, fun _ => "", fun _ => 0⟩).tx_gain 0
        = RHODIUM_DEFAULT_INVALID_GAIN
    ∧ ¬ gainNoOp RHODIUM_DEFAULT_INVALID_GAIN 0
    ∧ RHODIUM_DEFAULT_INVALID_GAIN ≠ RHODIUM_DEFAULT_GAIN :=
  c6_initial_gain_is_invalid_sentinel 1 1 0
    ⟨fun _ => 0, fun _ => 0, fun _ => "", fun _ => 0,
     fun _ => 0, fun _ => 0, fun _ => "", fun _ => 0⟩ 0
    (by decide) (by decide) (by decide)

end Rhodium
